import Mathlib

/-!
# Library panel persistence (`pkg/services/librarypanels/database.go`)

A shallow embedding of the four repository operations `createLibraryPanel`,
`deleteLibraryPanel`, `getLibraryPanel` and `getAllLibraryPanels`.

The `library_panel` table is explicit state (a list of rows, in the store's
order).  Every operation takes the table and returns its Go results together
with the table afterwards.  The store primitives the operations call
(`Query`, `Insert`, `Exec`, `RowsAffected`, `Find`) may each fail; which of
them fail, and with which lower-level error, is an input (`Faults`).  The two
readings of `time.Now()` are inputs too.
-/

namespace LibraryPanels

/-! ## Data model -/

/-- A `time.Time` instant; `0` is the zero value. -/
abbrev Time := Int

/-- The persisted entity.  The Go struct is declared outside `database.go`;
the fields are those the source reads and writes and the spec lists. -/
structure LibraryPanel where
  ID : Int
  OrgID : Int
  FolderID : Int
  Title : String
  Model : List Nat
  Created : Time
  Updated : Time
  CreatedBy : Int
  UpdatedBy : Int
deriving DecidableEq, Repr

/-- The Go zero value `LibraryPanel{}`. -/
def LibraryPanel.zero : LibraryPanel :=
  { ID := 0, OrgID := 0, FolderID := 0, Title := "", Model := [],
    Created := 0, Updated := 0, CreatedBy := 0, UpdatedBy := 0 }

/-- The command of the create operation. -/
structure createLibraryPanelCommand where
  FolderID : Int
  Title : String
  Model : List Nat
deriving DecidableEq, Repr

/-- The authenticated caller, `c.SignedInUser`. -/
structure SignedInUser where
  UserId : Int
  OrgId : Int
deriving DecidableEq, Repr

/-- The request context, `*models.ReqContext`. -/
structure ReqContext where
  SignedInUser : SignedInUser
deriving DecidableEq, Repr

/-- Go `error` values the operations can return: the two sentinels of the
package, and any lower-level store error (identified by a code). -/
inductive Error where
  | errLibraryPanelAlreadyAdded
  | errLibraryPanelNotFound
  | storeFailure (code : Nat)
deriving DecidableEq, Repr

/-- Which store primitives fail, and with which lower-level error.  `none`
means the primitive succeeds. -/
structure Faults where
  Query : Option Nat
  Insert : Option Nat
  Exec : Option Nat
  RowsAffected : Option Nat
  Find : Option Nat
deriving DecidableEq, Repr

/-- All store primitives succeed. -/
def Faults.ok : Faults :=
  { Query := none, Insert := none, Exec := none, RowsAffected := none, Find := none }

/-- The `library_panel` table as seen through a `*sqlstore.DBSession`. -/
abbrev DBSession := List LibraryPanel

/-- The result of `session.Exec`. -/
structure ExecResult where
  rowsAffected : Int
deriving DecidableEq, Repr

/-! ## Store primitives -/

/-- The `WHERE org_id=? AND folder_id=? AND title=?` clause of the existence
check in `createLibraryPanel`. -/
def whereOrgFolderTitle (orgID folderID : Int) (title : String) (r : LibraryPanel) : Bool :=
  decide (r.OrgID = orgID) && decide (r.FolderID = folderID) && decide (r.Title = title)

/-- The `WHERE id=? and org_id=?` clause of `deleteLibraryPanel` and
`getLibraryPanel`. -/
def whereIdOrg (panelID orgID : Int) (r : LibraryPanel) : Bool :=
  decide (r.ID = panelID) && decide (r.OrgID = orgID)

/-- The `WHERE org_id=?` clause of `getAllLibraryPanels`. -/
def whereOrg (orgID : Int) (r : LibraryPanel) : Bool :=
  decide (r.OrgID = orgID)

/-- Modelled from the spec: the store primitive `query(sql, args...) -> rows`
(`session.Query`), which is not in `database.go`.  For
`SELECT 1 FROM library_panel WHERE <cond>` it returns one row holding `1` per
table row satisfying the condition, or the store's error. -/
def Query (f : Faults) (session : DBSession) (cond : LibraryPanel → Bool) :
    Except Error (List Int) :=
  match f.Query with
  | some code => .error (.storeFailure code)
  | none => .ok ((session.filter cond).map (fun _ => 1))

/-- Modelled from the spec: the identifier the store assigns to an inserted
row ("identifier (assigned by store)", "a non-zero identifier"): the
auto-increment value one past the largest identifier in the table. -/
def nextID (session : DBSession) : Int :=
  session.foldr (fun r m => max r.ID m) 0 + 1

/-- Modelled from the spec: the store primitive `insert(entity) -> error`
(`session.Insert`), which is not in `database.go`.  On success the entity
receives its store-assigned identifier and is appended to the table; on
failure the entity and the table are untouched. -/
def Insert (f : Faults) (session : DBSession) (bean : LibraryPanel) :
    Except Error (LibraryPanel × DBSession) :=
  match f.Insert with
  | some code => .error (.storeFailure code)
  | none =>
    let stored := { bean with ID := nextID session }
    .ok (stored, session ++ [stored])

/-- Modelled from the spec: the store primitive
`exec(sql, args...) -> result{rowsAffected}` (`session.Exec`), which is not in
`database.go`.  For `DELETE FROM library_panel WHERE <cond>` it removes every
row satisfying the condition and reports how many there were. -/
def Exec (f : Faults) (session : DBSession) (cond : LibraryPanel → Bool) :
    Except Error (ExecResult × DBSession) :=
  match f.Exec with
  | some code => .error (.storeFailure code)
  | none =>
    .ok ({ rowsAffected := ((session.filter cond).length : Int) },
         session.filter (fun r => !cond r))

/-- Modelled from the spec: `result.RowsAffected()`, which is not in
`database.go`. -/
def RowsAffected (f : Faults) (result : ExecResult) : Except Error Int :=
  match f.RowsAffected with
  | some code => .error (.storeFailure code)
  | none => .ok result.rowsAffected

/-- Modelled from the spec: the store primitive
`queryInto(sql, args...) -> []entity` (`session.SQL(...).Find`), which is not
in `database.go`.  For `SELECT * FROM library_panel WHERE <cond>` it yields the
rows satisfying the condition, in the store's order. -/
def Find (f : Faults) (session : DBSession) (cond : LibraryPanel → Bool) :
    Except Error (List LibraryPanel) :=
  match f.Find with
  | some code => .error (.storeFailure code)
  | none => .ok (session.filter cond)

/-- Modelled from the spec: `withTransactionalSession(fn) -> error`
(`SQLStore.WithTransactionalDbSession`), which is not in `database.go`.  The
callback runs on the table; when it returns an error the transaction is rolled
back (the table is as before), otherwise it is committed.  The second
component of the callback's result carries the Go variables the closure
captured, which a rollback does not restore. -/
def WithTransactionalDbSession {κ : Type}
    (callback : DBSession → (Option Error × κ) × DBSession) (table : DBSession) :
    (Option Error × κ) × DBSession :=
  match callback table with
  | ((some err, captured), _) => ((some err, captured), table)
  | ((none, captured), session) => ((none, captured), session)

/-- Modelled from the spec: `withSession(fn) -> error`
(`SQLStore.WithDbSession`), which is not in `database.go`: the callback runs
on the table without a transaction. -/
def WithDbSession {κ : Type}
    (callback : DBSession → (Option Error × κ) × DBSession) (table : DBSession) :
    (Option Error × κ) × DBSession :=
  callback table

/-! ## The operations of `database.go` -/

/-- Embedding of `createLibraryPanel`: `created` and `updated` are the two
readings of `time.Now()`.  Returns the Go pair `(libraryPanel, err)` and the
table afterwards. -/
def createLibraryPanel (f : Faults) (created updated : Time) (c : ReqContext)
    (cmd : createLibraryPanelCommand) (table : DBSession) :
    (LibraryPanel × Option Error) × DBSession :=
  let libraryPanel : LibraryPanel :=
    { ID := 0
      OrgID := c.SignedInUser.OrgId
      FolderID := cmd.FolderID
      Title := cmd.Title
      Model := cmd.Model
      Created := created
      Updated := updated
      CreatedBy := c.SignedInUser.UserId
      UpdatedBy := c.SignedInUser.UserId }
  let out := WithTransactionalDbSession (fun session =>
    match Query f session
        (whereOrgFolderTitle c.SignedInUser.OrgId cmd.FolderID cmd.Title) with
    | .error err => ((some err, libraryPanel), session)
    | .ok res =>
      if res.length = 1 then
        ((some Error.errLibraryPanelAlreadyAdded, libraryPanel), session)
      else
        match Insert f session libraryPanel with
        | .error err => ((some err, libraryPanel), session)
        | .ok (stored, session') => ((none, stored), session')) table
  ((out.1.2, out.1.1), out.2)

/-- Embedding of `deleteLibraryPanel`.  Returns the Go `err` and the table
afterwards. -/
def deleteLibraryPanel (f : Faults) (c : ReqContext) (panelID : Int)
    (table : DBSession) : Option Error × DBSession :=
  let orgID := c.SignedInUser.OrgId
  let out := WithTransactionalDbSession (fun session =>
    match Exec f session (whereIdOrg panelID orgID) with
    | .error err => ((some err, ()), session)
    | .ok (result, session') =>
      match RowsAffected f result with
      | .error err => ((some err, ()), session')
      | .ok rowsAffected =>
        if rowsAffected ≠ 1 then
          ((some Error.errLibraryPanelNotFound, ()), session')
        else
          ((none, ()), session')) table
  (out.1.1, out.2)

/-- Embedding of `getLibraryPanels`: `cond` is the `WHERE` clause of the
statement with its arguments bound.  Returns the Go pair
`(libraryPanels, err)`. -/
def getLibraryPanels (f : Faults) (session : DBSession) (cond : LibraryPanel → Bool) :
    List LibraryPanel × Option Error :=
  match Find f session cond with
  | .error err => ([], some err)
  | .ok rows => (rows, none)

/-- Embedding of `getLibraryPanel`.  Returns the Go pair `(libraryPanel, err)`
and the table afterwards. -/
def getLibraryPanel (f : Faults) (c : ReqContext) (panelID : Int)
    (table : DBSession) : (LibraryPanel × Option Error) × DBSession :=
  let orgID := c.SignedInUser.OrgId
  let libraryPanel := LibraryPanel.zero
  let out := WithDbSession (fun session =>
    match getLibraryPanels f session (whereIdOrg panelID orgID) with
    | (_, some err) => ((some err, libraryPanel), session)
    | (libraryPanels, none) =>
      if h : libraryPanels.length ≠ 1 then
        ((some Error.errLibraryPanelNotFound, libraryPanel), session)
      else
        ((none, libraryPanels.get ⟨0, by omega⟩), session)) table
  ((out.1.2, out.1.1), out.2)

/-- Embedding of `getAllLibraryPanels`.  Returns the Go pair
`(libraryPanels, err)` and the table afterwards. -/
def getAllLibraryPanels (f : Faults) (c : ReqContext) (table : DBSession) :
    (List LibraryPanel × Option Error) × DBSession :=
  let orgID := c.SignedInUser.OrgId
  let libraryPanels : List LibraryPanel := []
  let out := WithDbSession (fun session =>
    match getLibraryPanels f session (whereOrg orgID) with
    | (_, some err) => ((some err, libraryPanels), session)
    | (panels, none) => ((none, panels), session)) table
  ((out.1.2, out.1.1), out.2)

/-! ## Predicates on the table -/

/-- The `(organization id, folder id, title)` tuple of a row. -/
def tupleOf (r : LibraryPanel) : Int × Int × String :=
  (r.OrgID, r.FolderID, r.Title)

/-- No two rows of the table share their `(org id, folder id, title)` tuple. -/
def TuplesUnique (table : DBSession) : Prop :=
  (table.map tupleOf).Nodup

instance (table : DBSession) : Decidable (TuplesUnique table) := by
  unfold TuplesUnique; infer_instance

/-- No two rows of the table share their identifier. -/
def IdsUnique (table : DBSession) : Prop :=
  (table.map (fun r => r.ID)).Nodup

instance (table : DBSession) : Decidable (IdsUnique table) := by
  unfold IdsUnique; infer_instance

/-- The entity `createLibraryPanel` constructs before it opens the
transaction: stamped from the context, the command and the clock, with the
identifier still zero. -/
def constructed (created updated : Time) (c : ReqContext)
    (cmd : createLibraryPanelCommand) : LibraryPanel :=
  { ID := 0
    OrgID := c.SignedInUser.OrgId
    FolderID := cmd.FolderID
    Title := cmd.Title
    Model := cmd.Model
    Created := created
    Updated := updated
    CreatedBy := c.SignedInUser.UserId
    UpdatedBy := c.SignedInUser.UserId }

/-! ## Sample values -/

/-- A caller of organization 1, user 7. -/
def sampleCtx : ReqContext := { SignedInUser := { UserId := 7, OrgId := 1 } }

/-- A caller of organization 2, user 8. -/
def otherCtx : ReqContext := { SignedInUser := { UserId := 8, OrgId := 2 } }

/-- The command `folder=5, title="A", model={}` of the spec's scenario. -/
def sampleCmd : createLibraryPanelCommand := { FolderID := 5, Title := "A", Model := [] }

/-- A row of organization 1, folder 5, title "A" with the given identifier. -/
def sampleRow (id : Int) : LibraryPanel :=
  { ID := id, OrgID := 1, FolderID := 5, Title := "A", Model := [],
    Created := 100, Updated := 100, CreatedBy := 7, UpdatedBy := 7 }

/-- A row of organization 2, folder 5, title "B" with the given identifier. -/
def otherRow (id : Int) : LibraryPanel :=
  { ID := id, OrgID := 2, FolderID := 5, Title := "B", Model := [],
    Created := 100, Updated := 100, CreatedBy := 8, UpdatedBy := 8 }

/-! ## Unfolding lemmas -/

theorem createLibraryPanel_eq (f : Faults) (created updated : Time) (c : ReqContext)
    (cmd : createLibraryPanelCommand) (table : DBSession) :
    createLibraryPanel f created updated c cmd table =
      match f.Query with
      | some code => ((constructed created updated c cmd, some (.storeFailure code)), table)
      | none =>
        if table.countP (whereOrgFolderTitle c.SignedInUser.OrgId cmd.FolderID cmd.Title) = 1 then
          ((constructed created updated c cmd, some .errLibraryPanelAlreadyAdded), table)
        else
          match f.Insert with
          | some code => ((constructed created updated c cmd, some (.storeFailure code)), table)
          | none =>
            (({ constructed created updated c cmd with ID := nextID table }, none),
              table ++ [{ constructed created updated c cmd with ID := nextID table }]) := by
  unfold createLibraryPanel WithTransactionalDbSession Query Insert constructed
  cases hq : f.Query with
  | some code => simp
  | none =>
    simp only [List.length_map, List.countP_eq_length_filter]
    split_ifs with h
    · simp [h]
    · cases hi : f.Insert with
      | some code => simp [h]
      | none => simp [h]

theorem deleteLibraryPanel_eq (f : Faults) (c : ReqContext) (panelID : Int)
    (table : DBSession) :
    deleteLibraryPanel f c panelID table =
      match f.Exec with
      | some code => (some (.storeFailure code), table)
      | none =>
        match f.RowsAffected with
        | some code => (some (.storeFailure code), table)
        | none =>
          if table.countP (whereIdOrg panelID c.SignedInUser.OrgId) = 1 then
            (none, table.filter (fun r => !whereIdOrg panelID c.SignedInUser.OrgId r))
          else
            (some .errLibraryPanelNotFound, table) := by
  unfold deleteLibraryPanel WithTransactionalDbSession Exec RowsAffected
  cases he : f.Exec with
  | some code => simp
  | none =>
    cases hr : f.RowsAffected with
    | some code => simp
    | none =>
      simp only [List.countP_eq_length_filter]
      by_cases h : (List.filter (whereIdOrg panelID c.SignedInUser.OrgId) table).length = 1
      · simp [h]
      · have h' : ((List.filter (whereIdOrg panelID c.SignedInUser.OrgId) table).length : Int) ≠ 1 := by
          exact_mod_cast h
        simp [h, h']

theorem getLibraryPanel_eq (f : Faults) (c : ReqContext) (panelID : Int)
    (table : DBSession) :
    getLibraryPanel f c panelID table =
      match f.Find with
      | some code => ((LibraryPanel.zero, some (.storeFailure code)), table)
      | none =>
        match table.filter (whereIdOrg panelID c.SignedInUser.OrgId) with
        | [only] => ((only, none), table)
        | _ => ((LibraryPanel.zero, some .errLibraryPanelNotFound), table) := by
  unfold getLibraryPanel WithDbSession getLibraryPanels Find
  cases hf : f.Find with
  | some code => simp
  | none =>
    simp only
    rcases hl : List.filter (whereIdOrg panelID c.SignedInUser.OrgId) table with _ | ⟨a, _ | ⟨b, l⟩⟩
    · simp
    · simp
    · simp

theorem getAllLibraryPanels_eq (f : Faults) (c : ReqContext) (table : DBSession) :
    getAllLibraryPanels f c table =
      match f.Find with
      | some code => (([], some (.storeFailure code)), table)
      | none => ((table.filter (whereOrg c.SignedInUser.OrgId), none), table) := by
  unfold getAllLibraryPanels WithDbSession getLibraryPanels Find
  cases hf : f.Find with
  | some code => simp
  | none => simp

/-! ## Facts about the table -/

theorem foldr_max_nonneg (table : DBSession) :
    0 ≤ table.foldr (fun r m => max r.ID m) 0 := by
  induction table with
  | nil => simp
  | cons a l ih => simp only [List.foldr_cons]; exact le_max_of_le_right ih

theorem le_foldr_max (table : DBSession) :
    ∀ r ∈ table, r.ID ≤ table.foldr (fun r m => max r.ID m) 0 := by
  induction table with
  | nil => simp
  | cons a l ih =>
    intro r hr
    simp only [List.foldr_cons]
    rcases List.mem_cons.mp hr with rfl | hr
    · exact le_max_left _ _
    · exact le_max_of_le_right (ih r hr)

theorem nextID_pos (table : DBSession) : 0 < nextID table := by
  have := foldr_max_nonneg table
  unfold nextID; omega

theorem lt_nextID (table : DBSession) (r : LibraryPanel) (hr : r ∈ table) :
    r.ID < nextID table := by
  have := le_foldr_max table r hr
  unfold nextID; omega

theorem whereOrgFolderTitle_iff (orgID folderID : Int) (title : String) (r : LibraryPanel) :
    whereOrgFolderTitle orgID folderID title r = true ↔
      r.OrgID = orgID ∧ r.FolderID = folderID ∧ r.Title = title := by
  simp [whereOrgFolderTitle, and_assoc]

theorem whereOrgFolderTitle_iff_tupleOf (orgID folderID : Int) (title : String)
    (r : LibraryPanel) :
    whereOrgFolderTitle orgID folderID title r = true ↔
      tupleOf r = (orgID, folderID, title) := by
  simp [whereOrgFolderTitle, tupleOf, and_assoc]

theorem whereIdOrg_iff (panelID orgID : Int) (r : LibraryPanel) :
    whereIdOrg panelID orgID r = true ↔ r.ID = panelID ∧ r.OrgID = orgID := by
  simp [whereIdOrg]

theorem countP_tuple_le_one (table : DBSession) (h : TuplesUnique table)
    (orgID folderID : Int) (title : String) :
    table.countP (whereOrgFolderTitle orgID folderID title) ≤ 1 := by
  induction table with
  | nil => simp
  | cons a l ih =>
    unfold TuplesUnique at h ih
    rw [List.map_cons, List.nodup_cons] at h
    by_cases ha : whereOrgFolderTitle orgID folderID title a = true
    · have hz : l.countP (whereOrgFolderTitle orgID folderID title) = 0 := by
        rw [List.countP_eq_zero]
        intro r hr hp
        apply h.1
        rw [List.mem_map]
        refine ⟨r, hr, ?_⟩
        rw [(whereOrgFolderTitle_iff_tupleOf _ _ _ r).mp hp,
          (whereOrgFolderTitle_iff_tupleOf _ _ _ a).mp ha]
      rw [List.countP_cons_of_pos _ _ ha, hz]
    · rw [List.countP_cons_of_neg _ _ ha]
      exact ih h.2

theorem tuplesUnique_append_singleton (table : DBSession) (x : LibraryPanel)
    (h : TuplesUnique table) (hx : ∀ r ∈ table, tupleOf r ≠ tupleOf x) :
    TuplesUnique (table ++ [x]) := by
  unfold TuplesUnique at *
  rw [List.map_append, List.nodup_append]
  refine ⟨h, by simp, ?_⟩
  intro k hk hk'
  simp only [List.map_cons, List.map_nil, List.mem_singleton] at hk'
  obtain ⟨r, hr, rfl⟩ := List.mem_map.mp hk
  exact hx r hr hk'

theorem tuplesUnique_filter (table : DBSession) (p : LibraryPanel → Bool)
    (h : TuplesUnique table) : TuplesUnique (table.filter p) := by
  unfold TuplesUnique at *
  exact h.sublist ((List.filter_sublist table).map tupleOf)

theorem filter_eq_singleton_split (p : LibraryPanel → Bool) (table : DBSession)
    (h : table.countP p = 1) :
    ∃ before row after, table = before ++ row :: after ∧ p row = true ∧
      (∀ r ∈ before, p r = false) ∧ (∀ r ∈ after, p r = false) ∧
      table.filter p = [row] ∧
      table.filter (fun r => !p r) = before ++ after := by
  induction table with
  | nil => simp at h
  | cons a l ih =>
    by_cases ha : p a = true
    · rw [List.countP_cons_of_pos _ _ ha] at h
      have hz : l.countP p = 0 := by omega
      rw [List.countP_eq_zero] at hz
      have hz' : ∀ r ∈ l, p r = false := fun r hr => by simpa using hz r hr
      refine ⟨[], a, l, by simp, ha, by simp, hz', ?_, ?_⟩
      · rw [List.filter_cons_of_pos ha, List.filter_eq_nil_iff.mpr hz]
      · rw [List.filter_cons_of_neg (by simp [ha])]
        simp only [List.nil_append]
        rw [List.filter_eq_self]
        intro r hr; simp [hz' r hr]
    · rw [List.countP_cons_of_neg _ _ ha] at h
      obtain ⟨before, row, after, hl, hrow, hb, haf, hf1, hf2⟩ := ih h
      have ha' : p a = false := by simpa using ha
      refine ⟨a :: before, row, after, by simp [hl], hrow, ?_, haf, ?_, ?_⟩
      · intro r hr
        rcases List.mem_cons.mp hr with rfl | hr
        · exact ha'
        · exact hb r hr
      · rw [List.filter_cons_of_neg ha, hf1]
      · rw [List.filter_cons_of_pos (by simp [ha']), hf2]; rfl

theorem countP_tuple_eq_zero_iff (table : DBSession) (orgID folderID : Int) (title : String) :
    table.countP (whereOrgFolderTitle orgID folderID title) = 0 ↔
      ∀ r ∈ table, ¬ (r.OrgID = orgID ∧ r.FolderID = folderID ∧ r.Title = title) := by
  rw [List.countP_eq_zero]
  constructor
  · intro h r hr hp
    exact h r hr ((whereOrgFolderTitle_iff _ _ _ r).mpr hp)
  · intro h r hr hp
    exact h r hr ((whereOrgFolderTitle_iff _ _ _ r).mp hp)

theorem createLibraryPanel_inserts (f : Faults) (created updated : Time) (c : ReqContext)
    (cmd : createLibraryPanelCommand) (table : DBSession)
    (hquery : f.Query = none) (hinsert : f.Insert = none)
    (hcount : table.countP
      (whereOrgFolderTitle c.SignedInUser.OrgId cmd.FolderID cmd.Title) ≠ 1) :
    createLibraryPanel f created updated c cmd table =
      (({ constructed created updated c cmd with ID := nextID table }, none),
        table ++ [{ constructed created updated c cmd with ID := nextID table }]) := by
  rw [createLibraryPanel_eq, hquery, hinsert]
  simp [hcount]

theorem createLibraryPanel_ok_inv (f : Faults) (created updated : Time) (c : ReqContext)
    (cmd : createLibraryPanelCommand) (table : DBSession)
    (hok : (createLibraryPanel f created updated c cmd table).1.2 = none) :
    f.Query = none ∧ f.Insert = none ∧
      table.countP (whereOrgFolderTitle c.SignedInUser.OrgId cmd.FolderID cmd.Title) ≠ 1 := by
  rw [createLibraryPanel_eq] at hok
  cases hq : f.Query with
  | some code => rw [hq] at hok; simp at hok
  | none =>
    rw [hq] at hok
    by_cases hc : table.countP
        (whereOrgFolderTitle c.SignedInUser.OrgId cmd.FolderID cmd.Title) = 1
    · simp [hc] at hok
    · cases hi : f.Insert with
      | some code => rw [hi] at hok; simp [hc] at hok
      | none => exact ⟨rfl, rfl, hc⟩

theorem createLibraryPanel_table_cases (f : Faults) (created updated : Time) (c : ReqContext)
    (cmd : createLibraryPanelCommand) (table : DBSession) :
    (createLibraryPanel f created updated c cmd table).2 = table ∨
      (table.countP (whereOrgFolderTitle c.SignedInUser.OrgId cmd.FolderID cmd.Title) ≠ 1 ∧
        (createLibraryPanel f created updated c cmd table).2 =
          table ++ [{ constructed created updated c cmd with ID := nextID table }]) := by
  rw [createLibraryPanel_eq]
  cases hq : f.Query with
  | some code => simp
  | none =>
    by_cases hc : table.countP
        (whereOrgFolderTitle c.SignedInUser.OrgId cmd.FolderID cmd.Title) = 1
    · simp [hc]
    · cases hi : f.Insert with
      | some code => simp [hc]
      | none => simp [hc]

theorem deleteLibraryPanel_table_cases (f : Faults) (c : ReqContext) (panelID : Int)
    (table : DBSession) :
    (deleteLibraryPanel f c panelID table).2 = table ∨
      (deleteLibraryPanel f c panelID table).2 =
        table.filter (fun r => !whereIdOrg panelID c.SignedInUser.OrgId r) := by
  rw [deleteLibraryPanel_eq]
  cases he : f.Exec with
  | some code => simp
  | none =>
    cases hr : f.RowsAffected with
    | some code => simp
    | none =>
      by_cases hc : table.countP (whereIdOrg panelID c.SignedInUser.OrgId) = 1
      · simp [hc]
      · simp [hc]

theorem getLibraryPanel_table (f : Faults) (c : ReqContext) (panelID : Int)
    (table : DBSession) : (getLibraryPanel f c panelID table).2 = table := by
  rw [getLibraryPanel_eq]
  cases hf : f.Find with
  | some code => rfl
  | none =>
    simp only
    split <;> rfl

theorem getAllLibraryPanels_table (f : Faults) (c : ReqContext) (table : DBSession) :
    (getAllLibraryPanels f c table).2 = table := by
  rw [getAllLibraryPanels_eq]
  cases hf : f.Find with
  | some code => rfl
  | none => rfl

theorem countP_append_constructed (created updated : Time) (c : ReqContext)
    (cmd : createLibraryPanelCommand) (table : DBSession) (newID : Int) :
    (table ++ [{ constructed created updated c cmd with ID := newID }]).countP
        (whereOrgFolderTitle c.SignedInUser.OrgId cmd.FolderID cmd.Title) =
      table.countP (whereOrgFolderTitle c.SignedInUser.OrgId cmd.FolderID cmd.Title) + 1 := by
  rw [List.countP_append]
  simp [whereOrgFolderTitle, constructed]

/-! ## The claims -/

/-- C1, refuted as stated: from the tuple-unique table holding one row of
another organization, `createLibraryPanel` succeeds, and the
`createLibraryPanel` that follows immediately with the same context and command
fails with the lower-level error of its existence query, which the store did
not answer, not with `errLibraryPanelAlreadyAdded`. -/
theorem create_again_query_failure :
    TuplesUnique [otherRow 1] ∧
    (createLibraryPanel Faults.ok 10 11 sampleCtx sampleCmd [otherRow 1]).1.2 = none ∧
    (createLibraryPanel { Faults.ok with Query := some 3 } 12 13 sampleCtx sampleCmd
        (createLibraryPanel Faults.ok 10 11 sampleCtx sampleCmd [otherRow 1]).2).1.2 =
      some (Error.storeFailure 3) ∧
    (createLibraryPanel { Faults.ok with Query := some 3 } 12 13 sampleCtx sampleCmd
        (createLibraryPanel Faults.ok 10 11 sampleCtx sampleCmd [otherRow 1]).2).1.2 ≠
      some Error.errLibraryPanelAlreadyAdded := by
  refine ⟨by decide, by decide, by decide, by decide⟩

/-- C1, amended: from a table whose (org id, folder id, title) tuples are
unique, when `createLibraryPanel` succeeds, a `createLibraryPanel` that follows
immediately with the same organization id, folder id and title fails: with
`errLibraryPanelAlreadyAdded` when its existence query is answered by the
store, with the query's own error when it is not; in both cases the table after
the second call is the table before it. -/
theorem create_again_already_added (f f2 : Faults) (created updated created2 updated2 : Time)
    (c c2 : ReqContext) (cmd cmd2 : createLibraryPanelCommand) (table : DBSession)
    (huniq : TuplesUnique table)
    (horg : c2.SignedInUser.OrgId = c.SignedInUser.OrgId)
    (hfolder : cmd2.FolderID = cmd.FolderID) (htitle : cmd2.Title = cmd.Title)
    (hok : (createLibraryPanel f created updated c cmd table).1.2 = none) :
    (createLibraryPanel f2 created2 updated2 c2 cmd2
        (createLibraryPanel f created updated c cmd table).2).2 =
      (createLibraryPanel f created updated c cmd table).2 ∧
    (createLibraryPanel f2 created2 updated2 c2 cmd2
        (createLibraryPanel f created updated c cmd table).2).1.2 ≠ none ∧
    (f2.Query = none →
      (createLibraryPanel f2 created2 updated2 c2 cmd2
          (createLibraryPanel f created updated c cmd table).2).1.2 =
        some Error.errLibraryPanelAlreadyAdded) ∧
    (∀ code, f2.Query = some code →
      (createLibraryPanel f2 created2 updated2 c2 cmd2
          (createLibraryPanel f created updated c cmd table).2).1.2 =
        some (Error.storeFailure code)) := by
  obtain ⟨hq, hi, hc⟩ := createLibraryPanel_ok_inv f created updated c cmd table hok
  have hle := countP_tuple_le_one table huniq c.SignedInUser.OrgId cmd.FolderID cmd.Title
  rw [createLibraryPanel_inserts f created updated c cmd table hq hi hc]
  have hone : (table ++ [{ constructed created updated c cmd with ID := nextID table }]).countP
      (whereOrgFolderTitle c2.SignedInUser.OrgId cmd2.FolderID cmd2.Title) = 1 := by
    rw [horg, hfolder, htitle, countP_append_constructed]
    omega
  rw [createLibraryPanel_eq]
  cases hq2 : f2.Query with
  | some code => simp
  | none => simp [hone]

theorem create_again_already_added_witness :
    TuplesUnique [otherRow 1] ∧
    (createLibraryPanel Faults.ok 10 11 sampleCtx sampleCmd [otherRow 1]).1.2 = none ∧
    (createLibraryPanel Faults.ok 12 13 sampleCtx sampleCmd
        (createLibraryPanel Faults.ok 10 11 sampleCtx sampleCmd [otherRow 1]).2).2 =
      (createLibraryPanel Faults.ok 10 11 sampleCtx sampleCmd [otherRow 1]).2 ∧
    (createLibraryPanel Faults.ok 12 13 sampleCtx sampleCmd
        (createLibraryPanel Faults.ok 10 11 sampleCtx sampleCmd [otherRow 1]).2).1.2 =
      some Error.errLibraryPanelAlreadyAdded :=
  have h := create_again_already_added Faults.ok Faults.ok 10 11 12 13 sampleCtx sampleCtx
    sampleCmd sampleCmd [otherRow 1] (by decide) rfl rfl rfl (by decide)
  ⟨by decide, by decide, h.1, h.2.2.1 rfl⟩

/-- C2, refuted as stated: on a table that already holds two rows of
organization 1, folder 5, title "A", `createLibraryPanel` for that tuple (all
store primitives succeeding) returns no error and adds a third such row. -/
theorem create_two_matching_rows_inserts :
    (∃ r ∈ [sampleRow 1, sampleRow 2],
      r.OrgID = sampleCtx.SignedInUser.OrgId ∧ r.FolderID = sampleCmd.FolderID ∧
        r.Title = sampleCmd.Title) ∧
    (createLibraryPanel Faults.ok 10 11 sampleCtx sampleCmd
        [sampleRow 1, sampleRow 2]).1.2 ≠ some Error.errLibraryPanelAlreadyAdded ∧
    (createLibraryPanel Faults.ok 10 11 sampleCtx sampleCmd
        [sampleRow 1, sampleRow 2]).1.2 = none ∧
    (createLibraryPanel Faults.ok 10 11 sampleCtx sampleCmd [sampleRow 1, sampleRow 2]).2 =
      [sampleRow 1, sampleRow 2,
        { constructed 10 11 sampleCtx sampleCmd with ID := 3 }] := by
  refine ⟨⟨sampleRow 1, by simp, by decide⟩, by decide, by decide, by decide⟩

/-- C2, amended: whatever the table holds, when the existence query is
answered and exactly one row matches the caller's organization id and the
command's folder id and title, `createLibraryPanel` fails with
`errLibraryPanelAlreadyAdded`, returns the constructed entity and leaves the
table as it was; when no row matches and `Insert` succeeds too, it returns no
error and the table afterwards is the previous table followed by the returned
entity. -/
theorem create_checks_existing_row (f : Faults) (created updated : Time) (c : ReqContext)
    (cmd : createLibraryPanelCommand) (table : DBSession) (hquery : f.Query = none) :
    (table.countP (whereOrgFolderTitle c.SignedInUser.OrgId cmd.FolderID cmd.Title) = 1 →
      createLibraryPanel f created updated c cmd table =
        ((constructed created updated c cmd, some Error.errLibraryPanelAlreadyAdded), table)) ∧
    (f.Insert = none →
      (∀ r ∈ table, ¬ (r.OrgID = c.SignedInUser.OrgId ∧ r.FolderID = cmd.FolderID ∧
        r.Title = cmd.Title)) →
      (createLibraryPanel f created updated c cmd table).1.2 = none ∧
      (createLibraryPanel f created updated c cmd table).2 =
        table ++ [(createLibraryPanel f created updated c cmd table).1.1] ∧
      (createLibraryPanel f created updated c cmd table).1.1 =
        { constructed created updated c cmd with ID := nextID table }) := by
  constructor
  · intro hone
    rw [createLibraryPanel_eq, hquery]
    simp [hone]
  · intro hinsert hnone
    have hz := (countP_tuple_eq_zero_iff table _ _ _).mpr hnone
    rw [createLibraryPanel_inserts f created updated c cmd table hquery hinsert (by omega)]
    exact ⟨rfl, rfl, rfl⟩

theorem create_checks_existing_row_witness :
    createLibraryPanel Faults.ok 10 11 sampleCtx sampleCmd [sampleRow 1, otherRow 2] =
      ((constructed 10 11 sampleCtx sampleCmd, some Error.errLibraryPanelAlreadyAdded),
        [sampleRow 1, otherRow 2]) ∧
    (createLibraryPanel Faults.ok 10 11 sampleCtx sampleCmd [otherRow 2]).1.2 = none ∧
    (createLibraryPanel Faults.ok 10 11 sampleCtx sampleCmd [otherRow 2]).2 =
      [otherRow 2] ++ [(createLibraryPanel Faults.ok 10 11 sampleCtx sampleCmd [otherRow 2]).1.1] ∧
    (createLibraryPanel Faults.ok 10 11 sampleCtx sampleCmd [otherRow 2]).1.1 =
      { constructed 10 11 sampleCtx sampleCmd with ID := nextID [otherRow 2] } :=
  ⟨(create_checks_existing_row Faults.ok 10 11 sampleCtx sampleCmd [sampleRow 1, otherRow 2]
      rfl).1 (by decide),
    (create_checks_existing_row Faults.ok 10 11 sampleCtx sampleCmd [otherRow 2] rfl).2 rfl
      (by decide)⟩

/-- C3: uniqueness of the (org id, folder id, title) tuple is an invariant of
the table: when no two rows share a tuple before a call, none do after
`createLibraryPanel`, `deleteLibraryPanel`, `getLibraryPanel` or
`getAllLibraryPanels`, for every context, command, panel id, clock reading and
every combination of failing store primitives. -/
theorem tuples_unique_invariant (f : Faults) (created updated : Time) (c : ReqContext)
    (cmd : createLibraryPanelCommand) (panelID : Int) (table : DBSession)
    (huniq : TuplesUnique table) :
    TuplesUnique (createLibraryPanel f created updated c cmd table).2 ∧
    TuplesUnique (deleteLibraryPanel f c panelID table).2 ∧
    TuplesUnique (getLibraryPanel f c panelID table).2 ∧
    TuplesUnique (getAllLibraryPanels f c table).2 := by
  refine ⟨?_, ?_, ?_, ?_⟩
  · rcases createLibraryPanel_table_cases f created updated c cmd table with h | ⟨hc, h⟩
    · rw [h]; exact huniq
    · rw [h]
      have hle := countP_tuple_le_one table huniq c.SignedInUser.OrgId cmd.FolderID cmd.Title
      have hz : table.countP
          (whereOrgFolderTitle c.SignedInUser.OrgId cmd.FolderID cmd.Title) = 0 := by omega
      rw [countP_tuple_eq_zero_iff] at hz
      apply tuplesUnique_append_singleton table _ huniq
      intro r hr heq
      apply hz r hr
      simpa [tupleOf, constructed] using heq
  · rcases deleteLibraryPanel_table_cases f c panelID table with h | h
    · rw [h]; exact huniq
    · rw [h]; exact tuplesUnique_filter table _ huniq
  · rw [getLibraryPanel_table]; exact huniq
  · rw [getAllLibraryPanels_table]; exact huniq

theorem tuples_unique_invariant_witness :
    TuplesUnique [sampleRow 1, otherRow 2] ∧
    TuplesUnique (createLibraryPanel Faults.ok 10 11 otherCtx sampleCmd
      [sampleRow 1, otherRow 2]).2 ∧
    TuplesUnique (deleteLibraryPanel Faults.ok otherCtx 2 [sampleRow 1, otherRow 2]).2 ∧
    TuplesUnique (getLibraryPanel Faults.ok otherCtx 2 [sampleRow 1, otherRow 2]).2 ∧
    TuplesUnique (getAllLibraryPanels Faults.ok otherCtx [sampleRow 1, otherRow 2]).2 :=
  ⟨by decide,
    tuples_unique_invariant Faults.ok 10 11 otherCtx sampleCmd 2 [sampleRow 1, otherRow 2]
      (by decide)⟩

/-- C4: when no row of the table has the caller's organization id and the
command's folder id and title, and `Query` and `Insert` succeed,
`createLibraryPanel` returns no error and an entity whose OrgID is the
context's organization id, whose CreatedBy and UpdatedBy are the context's
user id, whose FolderID, Title and Model are the command's, whose Created and
Updated are the two clock readings, and whose ID is the identifier the store
assigned, which is not zero; the table afterwards is the previous table
followed by exactly that entity. -/
theorem create_fresh_tuple_succeeds (f : Faults) (created updated : Time) (c : ReqContext)
    (cmd : createLibraryPanelCommand) (table : DBSession)
    (hquery : f.Query = none) (hinsert : f.Insert = none)
    (hnone : ∀ r ∈ table, ¬ (r.OrgID = c.SignedInUser.OrgId ∧ r.FolderID = cmd.FolderID ∧
      r.Title = cmd.Title)) :
    (createLibraryPanel f created updated c cmd table).1.2 = none ∧
    (createLibraryPanel f created updated c cmd table).1.1.OrgID = c.SignedInUser.OrgId ∧
    (createLibraryPanel f created updated c cmd table).1.1.CreatedBy = c.SignedInUser.UserId ∧
    (createLibraryPanel f created updated c cmd table).1.1.UpdatedBy = c.SignedInUser.UserId ∧
    (createLibraryPanel f created updated c cmd table).1.1.FolderID = cmd.FolderID ∧
    (createLibraryPanel f created updated c cmd table).1.1.Title = cmd.Title ∧
    (createLibraryPanel f created updated c cmd table).1.1.Model = cmd.Model ∧
    (createLibraryPanel f created updated c cmd table).1.1.Created = created ∧
    (createLibraryPanel f created updated c cmd table).1.1.Updated = updated ∧
    (createLibraryPanel f created updated c cmd table).1.1.ID = nextID table ∧
    (createLibraryPanel f created updated c cmd table).1.1.ID ≠ 0 ∧
    (createLibraryPanel f created updated c cmd table).2 =
      table ++ [(createLibraryPanel f created updated c cmd table).1.1] := by
  have hz := (countP_tuple_eq_zero_iff table _ _ _).mpr hnone
  rw [createLibraryPanel_inserts f created updated c cmd table hquery hinsert (by omega)]
  have hpos := nextID_pos table
  refine ⟨rfl, rfl, rfl, rfl, rfl, rfl, rfl, rfl, rfl, rfl, ?_, rfl⟩
  show nextID table ≠ 0
  omega

theorem create_fresh_tuple_succeeds_witness :
    (createLibraryPanel Faults.ok 10 11 sampleCtx sampleCmd [otherRow 4]).1.2 = none ∧
    (createLibraryPanel Faults.ok 10 11 sampleCtx sampleCmd [otherRow 4]).1.1.OrgID = 1 ∧
    (createLibraryPanel Faults.ok 10 11 sampleCtx sampleCmd [otherRow 4]).1.1.ID = 5 ∧
    (createLibraryPanel Faults.ok 10 11 sampleCtx sampleCmd [otherRow 4]).2 =
      [otherRow 4] ++ [(createLibraryPanel Faults.ok 10 11 sampleCtx sampleCmd [otherRow 4]).1.1] :=
  have h := create_fresh_tuple_succeeds Faults.ok 10 11 sampleCtx sampleCmd [otherRow 4]
    rfl rfl (by decide)
  ⟨h.1, h.2.1, h.2.2.2.2.2.2.2.2.2.1.trans (by decide), h.2.2.2.2.2.2.2.2.2.2.2⟩

/-- C5: with `Exec` and `RowsAffected` succeeding, `deleteLibraryPanel`
returns no error if and only if exactly one row matches (id = panel id,
org_id = caller's organization id); in that case the table splits as
`before ++ row :: after` with `row` the one matching row, and the table
afterwards is `before ++ after`: that row removed, every other row in place. -/
theorem delete_ok_iff_one_row (f : Faults) (c : ReqContext) (panelID : Int)
    (table : DBSession) (hexec : f.Exec = none) (hrows : f.RowsAffected = none) :
    ((deleteLibraryPanel f c panelID table).1 = none ↔
      table.countP (whereIdOrg panelID c.SignedInUser.OrgId) = 1) ∧
    (table.countP (whereIdOrg panelID c.SignedInUser.OrgId) = 1 →
      ∃ before row after, table = before ++ row :: after ∧
        (row.ID = panelID ∧ row.OrgID = c.SignedInUser.OrgId) ∧
        (∀ r ∈ before ++ after, ¬ (r.ID = panelID ∧ r.OrgID = c.SignedInUser.OrgId)) ∧
        (deleteLibraryPanel f c panelID table).2 = before ++ after) := by
  rw [deleteLibraryPanel_eq, hexec, hrows]
  by_cases hc : table.countP (whereIdOrg panelID c.SignedInUser.OrgId) = 1
  · simp only [hc, if_true, true_and, forall_const, iff_true]
    obtain ⟨before, row, after, ht, hrow, hb, ha, -, hdel⟩ :=
      filter_eq_singleton_split (whereIdOrg panelID c.SignedInUser.OrgId) table hc
    refine ⟨before, row, after, ht, (whereIdOrg_iff _ _ _).mp hrow, ?_, hdel⟩
    intro r hr hp
    have hp' := (whereIdOrg_iff panelID c.SignedInUser.OrgId r).mpr hp
    rcases List.mem_append.mp hr with h | h
    · rw [hb r h] at hp'; exact absurd hp' (by simp)
    · rw [ha r h] at hp'; exact absurd hp' (by simp)
  · simp [hc]

theorem delete_ok_iff_one_row_witness :
    (deleteLibraryPanel Faults.ok sampleCtx 2 [otherRow 1, sampleRow 2, sampleRow 3]).1 = none ∧
    ((deleteLibraryPanel Faults.ok sampleCtx 9 [otherRow 1, sampleRow 2, sampleRow 3]).1 = none ↔
      [otherRow 1, sampleRow 2, sampleRow 3].countP
        (whereIdOrg 9 sampleCtx.SignedInUser.OrgId) = 1) :=
  ⟨(delete_ok_iff_one_row Faults.ok sampleCtx 2 [otherRow 1, sampleRow 2, sampleRow 3]
      rfl rfl).1.mpr (by decide),
    (delete_ok_iff_one_row Faults.ok sampleCtx 9 [otherRow 1, sampleRow 2, sampleRow 3]
      rfl rfl).1⟩

/-- C6, refuted as stated: the only row with identifier 2 belongs to
organization 2, the caller is of organization 1, and `Exec` fails with a
lower-level error: `deleteLibraryPanel` returns that error, not
`errLibraryPanelNotFound`. -/
theorem delete_missing_exec_failure :
    (∀ r ∈ [sampleRow 1, otherRow 2], r.ID = 2 → r.OrgID ≠ sampleCtx.SignedInUser.OrgId) ∧
    deleteLibraryPanel { Faults.ok with Exec := some 3 } sampleCtx 2
        [sampleRow 1, otherRow 2] =
      (some (Error.storeFailure 3), [sampleRow 1, otherRow 2]) ∧
    (deleteLibraryPanel { Faults.ok with Exec := some 3 } sampleCtx 2
        [sampleRow 1, otherRow 2]).1 ≠ some Error.errLibraryPanelNotFound := by
  refine ⟨by decide, by decide, by decide⟩

/-- C6, amended: when no row has the panel id, or every row with that id
belongs to an organization other than the caller's, `deleteLibraryPanel` fails
and leaves the table exactly as it was, rows of other organizations included:
with `errLibraryPanelNotFound` when `Exec` and `RowsAffected` succeed, and with
the error of `Exec` or of `RowsAffected` when that primitive fails. -/
theorem delete_missing_not_found (f : Faults) (c : ReqContext) (panelID : Int)
    (table : DBSession)
    (hmissing : ∀ r ∈ table, r.ID = panelID → r.OrgID ≠ c.SignedInUser.OrgId) :
    (deleteLibraryPanel f c panelID table).2 = table ∧
    (deleteLibraryPanel f c panelID table).1 ≠ none ∧
    (f.Exec = none → f.RowsAffected = none →
      (deleteLibraryPanel f c panelID table).1 = some Error.errLibraryPanelNotFound) ∧
    (∀ code, f.Exec = some code →
      (deleteLibraryPanel f c panelID table).1 = some (Error.storeFailure code)) ∧
    (∀ code, f.Exec = none → f.RowsAffected = some code →
      (deleteLibraryPanel f c panelID table).1 = some (Error.storeFailure code)) := by
  have hz : table.countP (whereIdOrg panelID c.SignedInUser.OrgId) = 0 := by
    rw [List.countP_eq_zero]
    intro r hr hp
    obtain ⟨hid, horg⟩ := (whereIdOrg_iff _ _ _).mp hp
    exact hmissing r hr hid horg
  rw [deleteLibraryPanel_eq]
  cases he : f.Exec with
  | some code => simp
  | none =>
    cases hr : f.RowsAffected with
    | some code => simp
    | none => simp [hz]

theorem delete_missing_not_found_witness :
    (∀ r ∈ [sampleRow 1, otherRow 2], r.ID = 2 → r.OrgID ≠ sampleCtx.SignedInUser.OrgId) ∧
    (deleteLibraryPanel Faults.ok sampleCtx 2 [sampleRow 1, otherRow 2]).2 =
      [sampleRow 1, otherRow 2] ∧
    (deleteLibraryPanel Faults.ok sampleCtx 2 [sampleRow 1, otherRow 2]).1 =
      some Error.errLibraryPanelNotFound :=
  ⟨by decide,
    (delete_missing_not_found Faults.ok sampleCtx 2 [sampleRow 1, otherRow 2] (by decide)).1,
    (delete_missing_not_found Faults.ok sampleCtx 2 [sampleRow 1, otherRow 2] (by decide)).2.2.1
      rfl rfl⟩

/-- C7, refuted as stated: `createLibraryPanel` succeeds on a table whose row
identifiers are unique and returns its entity, and the `getLibraryPanel` that
follows with the same context and that entity's identifier, its query failing
with a lower-level error, returns that error and the zero-valued entity, not
the created one. -/
theorem create_then_get_find_failure :
    IdsUnique [otherRow 4, sampleRow 2] ∧
    (createLibraryPanel Faults.ok 10 11 sampleCtx ⟨6, "C", [1]⟩ [otherRow 4, sampleRow 2]).1.2 =
      none ∧
    getLibraryPanel { Faults.ok with Find := some 3 } sampleCtx
        (createLibraryPanel Faults.ok 10 11 sampleCtx ⟨6, "C", [1]⟩
          [otherRow 4, sampleRow 2]).1.1.ID
        (createLibraryPanel Faults.ok 10 11 sampleCtx ⟨6, "C", [1]⟩ [otherRow 4, sampleRow 2]).2 =
      ((LibraryPanel.zero, some (Error.storeFailure 3)),
        (createLibraryPanel Faults.ok 10 11 sampleCtx ⟨6, "C", [1]⟩ [otherRow 4, sampleRow 2]).2) ∧
    LibraryPanel.zero ≠
      (createLibraryPanel Faults.ok 10 11 sampleCtx ⟨6, "C", [1]⟩
        [otherRow 4, sampleRow 2]).1.1 := by
  refine ⟨by decide, by decide, by decide, by decide⟩

/-- C7, amended: round trip of create and get.  From a table whose row
identifiers are unique, when `createLibraryPanel` succeeds and returns entity
`e`, then `e` is the entity constructed from the context, the command and the
clock with the identifier the store assigned, no row of the previous table has
that identifier, the table afterwards is the previous table followed by `e`,
its identifiers are still unique and `e` is its one row matching
(id = `e.ID`, org_id = caller's organization id); `getLibraryPanel` with the
same context and panel id `e.ID` leaves the table as it is and, when its query
succeeds, returns no error and an entity equal to `e` in every field; when its
query fails it returns the query's error and the zero-valued entity. -/
theorem create_then_get (f f2 : Faults) (created updated : Time) (c : ReqContext)
    (cmd : createLibraryPanelCommand) (table : DBSession)
    (hids : IdsUnique table)
    (hok : (createLibraryPanel f created updated c cmd table).1.2 = none) :
    (createLibraryPanel f created updated c cmd table).1.1 =
      { constructed created updated c cmd with ID := nextID table } ∧
    (∀ r ∈ table, r.ID ≠ (createLibraryPanel f created updated c cmd table).1.1.ID) ∧
    (createLibraryPanel f created updated c cmd table).2 =
      table ++ [(createLibraryPanel f created updated c cmd table).1.1] ∧
    IdsUnique (createLibraryPanel f created updated c cmd table).2 ∧
    (createLibraryPanel f created updated c cmd table).2.filter
        (fun r => decide (r.ID = (createLibraryPanel f created updated c cmd table).1.1.ID) &&
          decide (r.OrgID = c.SignedInUser.OrgId)) =
      [(createLibraryPanel f created updated c cmd table).1.1] ∧
    (f2.Find = none →
      getLibraryPanel f2 c (createLibraryPanel f created updated c cmd table).1.1.ID
          (createLibraryPanel f created updated c cmd table).2 =
        (((createLibraryPanel f created updated c cmd table).1.1, none),
          (createLibraryPanel f created updated c cmd table).2)) ∧
    (∀ code, f2.Find = some code →
      getLibraryPanel f2 c (createLibraryPanel f created updated c cmd table).1.1.ID
          (createLibraryPanel f created updated c cmd table).2 =
        ((LibraryPanel.zero, some (Error.storeFailure code)),
          (createLibraryPanel f created updated c cmd table).2)) := by
  obtain ⟨hq, hi, hc⟩ := createLibraryPanel_ok_inv f created updated c cmd table hok
  rw [createLibraryPanel_inserts f created updated c cmd table hq hi hc]
  have hfresh : ∀ r ∈ table, r.ID ≠ nextID table := fun r hr =>
    ne_of_lt (lt_nextID table r hr)
  have hold : table.filter (whereIdOrg (nextID table) c.SignedInUser.OrgId) = [] := by
    rw [List.filter_eq_nil_iff]
    intro r hr hp
    exact hfresh r hr ((whereIdOrg_iff _ _ _).mp hp).1
  have hone : (table ++ [{ constructed created updated c cmd with ID := nextID table }]).filter
      (whereIdOrg (nextID table) c.SignedInUser.OrgId) =
      [{ constructed created updated c cmd with ID := nextID table }] := by
    rw [List.filter_append, hold]
    simp [whereIdOrg, constructed]
  refine ⟨rfl, hfresh, rfl, ?_, hone, ?_, ?_⟩
  · unfold IdsUnique at *
    rw [List.map_append, List.nodup_append]
    refine ⟨hids, by simp, ?_⟩
    intro k hk hk'
    simp only [List.map_cons, List.map_nil, List.mem_singleton] at hk'
    obtain ⟨r, hr, rfl⟩ := List.mem_map.mp hk
    exact hfresh r hr hk'
  · intro hfind
    rw [getLibraryPanel_eq, hfind]
    simp only [hone]
  · intro code hfind
    rw [getLibraryPanel_eq, hfind]

theorem create_then_get_witness :
    IdsUnique [otherRow 4, sampleRow 2] ∧
    (createLibraryPanel Faults.ok 10 11 sampleCtx ⟨6, "C", [1]⟩ [otherRow 4, sampleRow 2]).1.2 =
      none ∧
    (createLibraryPanel Faults.ok 10 11 sampleCtx ⟨6, "C", [1]⟩ [otherRow 4, sampleRow 2]).1.1 =
      { ID := 5, OrgID := 1, FolderID := 6, Title := "C", Model := [1],
        Created := 10, Updated := 11, CreatedBy := 7, UpdatedBy := 7 } ∧
    (createLibraryPanel Faults.ok 10 11 sampleCtx ⟨6, "C", [1]⟩ [otherRow 4, sampleRow 2]).2 =
      [otherRow 4, sampleRow 2] ++
        [(createLibraryPanel Faults.ok 10 11 sampleCtx ⟨6, "C", [1]⟩
          [otherRow 4, sampleRow 2]).1.1] ∧
    getLibraryPanel Faults.ok sampleCtx
        (createLibraryPanel Faults.ok 10 11 sampleCtx ⟨6, "C", [1]⟩
          [otherRow 4, sampleRow 2]).1.1.ID
        (createLibraryPanel Faults.ok 10 11 sampleCtx ⟨6, "C", [1]⟩ [otherRow 4, sampleRow 2]).2 =
      (((createLibraryPanel Faults.ok 10 11 sampleCtx ⟨6, "C", [1]⟩
          [otherRow 4, sampleRow 2]).1.1, none),
        (createLibraryPanel Faults.ok 10 11 sampleCtx ⟨6, "C", [1]⟩ [otherRow 4, sampleRow 2]).2) :=
  have h := create_then_get Faults.ok Faults.ok 10 11 sampleCtx ⟨6, "C", [1]⟩
    [otherRow 4, sampleRow 2] (by decide) (by decide)
  ⟨by decide, by decide, h.1.trans (by decide), h.2.2.1, h.2.2.2.2.2.1 rfl⟩

/-- C8: with the query (`Find`) succeeding, `getLibraryPanel` returns the
matching row and no error exactly when one row matches (id = panel id,
org_id = caller's organization id); when zero rows or more than one row match
it fails with `errLibraryPanelNotFound` and returns the zero-valued entity; in
every case the table is left unchanged. -/
theorem get_one_row_or_not_found (f : Faults) (c : ReqContext) (panelID : Int)
    (table : DBSession) (hfind : f.Find = none) :
    ((getLibraryPanel f c panelID table).1.2 = none ↔
      table.countP (whereIdOrg panelID c.SignedInUser.OrgId) = 1) ∧
    (∀ row, table.filter (whereIdOrg panelID c.SignedInUser.OrgId) = [row] →
      getLibraryPanel f c panelID table = ((row, none), table)) ∧
    (table.countP (whereIdOrg panelID c.SignedInUser.OrgId) = 1 →
      ∃ row ∈ table, (row.ID = panelID ∧ row.OrgID = c.SignedInUser.OrgId) ∧
        getLibraryPanel f c panelID table = ((row, none), table)) ∧
    (table.countP (whereIdOrg panelID c.SignedInUser.OrgId) ≠ 1 →
      getLibraryPanel f c panelID table =
        ((LibraryPanel.zero, some Error.errLibraryPanelNotFound), table)) ∧
    (getLibraryPanel f c panelID table).2 = table := by
  have heq := getLibraryPanel_eq f c panelID table
  rw [hfind] at heq
  simp only at heq
  refine ⟨?_, ?_, ?_, ?_, getLibraryPanel_table f c panelID table⟩
  · rw [heq, List.countP_eq_length_filter]
    rcases hl : List.filter (whereIdOrg panelID c.SignedInUser.OrgId) table
      with _ | ⟨a, _ | ⟨b, l⟩⟩ <;> simp
  · intro row hrow
    rw [heq, hrow]
  · intro hone
    obtain ⟨before, row, after, ht, hrow, -, -, hf, -⟩ :=
      filter_eq_singleton_split (whereIdOrg panelID c.SignedInUser.OrgId) table hone
    refine ⟨row, by rw [ht]; simp, (whereIdOrg_iff _ _ _).mp hrow, ?_⟩
    rw [heq, hf]
  · intro hne
    rw [heq]
    rw [List.countP_eq_length_filter] at hne
    rcases hl : List.filter (whereIdOrg panelID c.SignedInUser.OrgId) table
      with _ | ⟨a, _ | ⟨b, l⟩⟩
    · rfl
    · rw [hl] at hne; simp at hne
    · rfl

theorem get_one_row_or_not_found_witness :
    getLibraryPanel Faults.ok sampleCtx 2 [sampleRow 1, sampleRow 2, otherRow 3] =
      ((sampleRow 2, none), [sampleRow 1, sampleRow 2, otherRow 3]) ∧
    getLibraryPanel Faults.ok sampleCtx 3 [sampleRow 1, sampleRow 2, otherRow 3] =
      ((LibraryPanel.zero, some Error.errLibraryPanelNotFound),
        [sampleRow 1, sampleRow 2, otherRow 3]) ∧
    getLibraryPanel Faults.ok sampleCtx 1 [sampleRow 1, sampleRow 1] =
      ((LibraryPanel.zero, some Error.errLibraryPanelNotFound),
        [sampleRow 1, sampleRow 1]) :=
  ⟨(get_one_row_or_not_found Faults.ok sampleCtx 2 [sampleRow 1, sampleRow 2, otherRow 3]
      rfl).2.1 (sampleRow 2) (by decide),
    (get_one_row_or_not_found Faults.ok sampleCtx 3 [sampleRow 1, sampleRow 2, otherRow 3]
      rfl).2.2.2.1 (by decide),
    (get_one_row_or_not_found Faults.ok sampleCtx 1 [sampleRow 1, sampleRow 1]
      rfl).2.2.2.1 (by decide)⟩

/-- C9: with the query (`Find`) succeeding, `getAllLibraryPanels` returns no
error and the rows of the table whose organization id is the caller's, in the
store's order: a row is in the result exactly when it is in the table with that
organization id, it occurs as often as in the table, rows of other
organizations do not occur, and the result is empty when the organization has
no panels; the table is left unchanged. -/
theorem get_all_rows_of_org (f : Faults) (c : ReqContext) (table : DBSession)
    (hfind : f.Find = none) :
    getAllLibraryPanels f c table =
      ((table.filter (fun r => decide (r.OrgID = c.SignedInUser.OrgId)), none), table) ∧
    (∀ r, r ∈ (getAllLibraryPanels f c table).1.1 ↔
      r ∈ table ∧ r.OrgID = c.SignedInUser.OrgId) ∧
    (∀ r, (getAllLibraryPanels f c table).1.1.count r =
      if r.OrgID = c.SignedInUser.OrgId then table.count r else 0) ∧
    List.Sublist (getAllLibraryPanels f c table).1.1 table ∧
    ((∀ r ∈ table, r.OrgID ≠ c.SignedInUser.OrgId) →
      (getAllLibraryPanels f c table).1.1 = []) := by
  have heq : getAllLibraryPanels f c table =
      ((table.filter (fun r => decide (r.OrgID = c.SignedInUser.OrgId)), none), table) := by
    rw [getAllLibraryPanels_eq, hfind]; rfl
  rw [heq]
  refine ⟨rfl, ?_, ?_, List.filter_sublist table, ?_⟩
  · intro r; simp [List.mem_filter]
  · intro r
    simp only
    by_cases h : r.OrgID = c.SignedInUser.OrgId
    · rw [if_pos h, List.count_filter (by simpa using h)]
    · rw [if_neg h, List.count_eq_zero]
      simp [List.mem_filter, h]
  · intro h
    simp only
    rw [List.filter_eq_nil_iff]
    intro r hr; simpa using h r hr

theorem get_all_rows_of_org_witness :
    getAllLibraryPanels Faults.ok sampleCtx [sampleRow 1, otherRow 2, sampleRow 3] =
      (([sampleRow 1, sampleRow 3], none), [sampleRow 1, otherRow 2, sampleRow 3]) ∧
    (getAllLibraryPanels Faults.ok sampleCtx [otherRow 2]).1.1 = [] :=
  ⟨(get_all_rows_of_org Faults.ok sampleCtx [sampleRow 1, otherRow 2, sampleRow 3] rfl).1.trans
      (by decide),
    (get_all_rows_of_org Faults.ok sampleCtx [otherRow 2] rfl).2.2.2.2 (by decide)⟩

/-- C10: store failures are propagated unchanged.  When a store primitive an
operation calls fails with a lower-level error, the operation returns exactly
that error, never `errLibraryPanelNotFound` or `errLibraryPanelAlreadyAdded`,
and the table is as before: `Query` and (reached when the query is answered
and does not return exactly one row) `Insert` in `createLibraryPanel`, which
returns the error together with the constructed entity, its identifier still
zero; `Exec` and (reached when `Exec` succeeds) `RowsAffected` in
`deleteLibraryPanel`; `Find` in `getLibraryPanel` and in
`getAllLibraryPanels`. -/
theorem store_failure_propagated (f : Faults) (created updated : Time) (c : ReqContext)
    (cmd : createLibraryPanelCommand) (panelID : Int) (table : DBSession) (code : Nat) :
    (f.Query = some code →
      createLibraryPanel f created updated c cmd table =
        ((constructed created updated c cmd, some (Error.storeFailure code)), table)) ∧
    (f.Query = none →
      table.countP (whereOrgFolderTitle c.SignedInUser.OrgId cmd.FolderID cmd.Title) ≠ 1 →
      f.Insert = some code →
      createLibraryPanel f created updated c cmd table =
        ((constructed created updated c cmd, some (Error.storeFailure code)), table)) ∧
    (f.Exec = some code →
      deleteLibraryPanel f c panelID table = (some (Error.storeFailure code), table)) ∧
    (f.Exec = none → f.RowsAffected = some code →
      deleteLibraryPanel f c panelID table = (some (Error.storeFailure code), table)) ∧
    (f.Find = some code →
      getLibraryPanel f c panelID table =
        ((LibraryPanel.zero, some (Error.storeFailure code)), table)) ∧
    (f.Find = some code →
      getAllLibraryPanels f c table = (([], some (Error.storeFailure code)), table)) ∧
    Error.storeFailure code ≠ Error.errLibraryPanelNotFound ∧
    Error.storeFailure code ≠ Error.errLibraryPanelAlreadyAdded ∧
    (constructed created updated c cmd).ID = 0 := by
  refine ⟨?_, ?_, ?_, ?_, ?_, ?_, by simp, by simp, rfl⟩
  · intro hq
    rw [createLibraryPanel_eq, hq]
  · intro hq hc hi
    rw [createLibraryPanel_eq, hq, hi]
    simp [hc]
  · intro he
    rw [deleteLibraryPanel_eq, he]
  · intro he hr
    rw [deleteLibraryPanel_eq, he, hr]
  · intro hf
    rw [getLibraryPanel_eq, hf]
  · intro hf
    rw [getAllLibraryPanels_eq, hf]

theorem store_failure_propagated_witness :
    createLibraryPanel { Faults.ok with Query := some 3 } 10 11 sampleCtx sampleCmd
        [sampleRow 1] =
      ((constructed 10 11 sampleCtx sampleCmd, some (Error.storeFailure 3)), [sampleRow 1]) ∧
    createLibraryPanel { Faults.ok with Insert := some 3 } 10 11 sampleCtx sampleCmd
        [otherRow 1] =
      ((constructed 10 11 sampleCtx sampleCmd, some (Error.storeFailure 3)), [otherRow 1]) ∧
    deleteLibraryPanel { Faults.ok with Exec := some 3 } sampleCtx 1 [sampleRow 1] =
      (some (Error.storeFailure 3), [sampleRow 1]) ∧
    deleteLibraryPanel { Faults.ok with RowsAffected := some 3 } sampleCtx 1 [sampleRow 1] =
      (some (Error.storeFailure 3), [sampleRow 1]) ∧
    getLibraryPanel { Faults.ok with Find := some 3 } sampleCtx 1 [sampleRow 1] =
      ((LibraryPanel.zero, some (Error.storeFailure 3)), [sampleRow 1]) ∧
    getAllLibraryPanels { Faults.ok with Find := some 3 } sampleCtx [sampleRow 1] =
      (([], some (Error.storeFailure 3)), [sampleRow 1]) :=
  ⟨(store_failure_propagated { Faults.ok with Query := some 3 } 10 11 sampleCtx sampleCmd 1
      [sampleRow 1] 3).1 rfl,
    (store_failure_propagated { Faults.ok with Insert := some 3 } 10 11 sampleCtx sampleCmd 1
      [otherRow 1] 3).2.1 rfl (by decide) rfl,
    (store_failure_propagated { Faults.ok with Exec := some 3 } 10 11 sampleCtx sampleCmd 1
      [sampleRow 1] 3).2.2.1 rfl,
    (store_failure_propagated { Faults.ok with RowsAffected := some 3 } 10 11 sampleCtx sampleCmd 1
      [sampleRow 1] 3).2.2.2.1 rfl rfl,
    (store_failure_propagated { Faults.ok with Find := some 3 } 10 11 sampleCtx sampleCmd 1
      [sampleRow 1] 3).2.2.2.2.1 rfl,
    (store_failure_propagated { Faults.ok with Find := some 3 } 10 11 sampleCtx sampleCmd 1
      [sampleRow 1] 3).2.2.2.2.2.1 rfl⟩

end LibraryPanels
